import Mathlib

/-!
# Tricopter mixer (src/main/flight/mixer_tricopter.h)

A shallow embedding of the data model declared by the tricopter mixer header:
its constants, its enumerations with their numeric values, and its records.

Conventions of the embedding:
* C enumerations are inductive types with a `toNat` giving the enumerator's
  numeric value as the header assigns it, and a `decode` from a stored integer.
* `uintN_t` fields are natural numbers reduced modulo `2 ^ N` where the
  arithmetic can wrap; `int16_t` fields are integers.
* `float` fields are idealised as exact rationals.
* Pointer fields are optional addresses, `none` for the null pointer.
-/

namespace MixerTricopter

/-! ## Constants of the header -/

/-- Lower limit of the stored tail thrust factor (header line 22). -/
def TAIL_THRUST_FACTOR_MIN : Int := 10

/-- Upper limit of the stored tail thrust factor (header line 23). -/
def TAIL_THRUST_FACTOR_MAX : Int := 400

/-- The macro TAIL_THRUST_FACTOR_MIN / 10.0f (header line 25). -/
def TAIL_THRUST_FACTOR_MIN_FLOAT : ℚ := (TAIL_THRUST_FACTOR_MIN : ℚ) / 10

/-- The macro TAIL_THRUST_FACTOR_MAX / 10.0f (header line 26). -/
def TAIL_THRUST_FACTOR_MAX_FLOAT : ℚ := (TAIL_THRUST_FACTOR_MAX : ℚ) / 10

/-- Largest magnitude of the motor acceleration correction (header line 28). -/
def TRI_MOTOR_ACC_CORRECTION_MAX : Int := 200

/-- Mid angle of the tail servo in degrees (header line 117). -/
def TRI_TAIL_SERVO_ANGLE_MID : ℚ := 90

/-- Number of entries of the yaw force curve (header line 118). -/
def TRI_YAW_FORCE_CURVE_SIZE : Nat := 100

/-- Maximum deflection of the tail servo in degrees (header line 119). -/
def TRI_TAIL_SERVO_MAX_ANGLE : ℚ := 50

/-! ## Enumerations -/

/-- Servo feedback sources (header lines 31-36). -/
inductive triServoFeedbackSource_e
  | TRI_SERVO_FB_VIRTUAL
  | TRI_SERVO_FB_RSSI
  | TRI_SERVO_FB_CURRENT
  | TRI_SERVO_FB_EXT1
  deriving DecidableEq, Repr, Fintype

/-- Numeric value of a feedback source: the first is 0, each next one more. -/
def triServoFeedbackSource_e.toNat : triServoFeedbackSource_e → Nat
  | .TRI_SERVO_FB_VIRTUAL => 0
  | .TRI_SERVO_FB_RSSI => 1
  | .TRI_SERVO_FB_CURRENT => 2
  | .TRI_SERVO_FB_EXT1 => 3

/-- The feedback source a stored integer stands for, if any. -/
def triServoFeedbackSource_e.decode : Nat → Option triServoFeedbackSource_e
  | 0 => some .TRI_SERVO_FB_VIRTUAL
  | 1 => some .TRI_SERVO_FB_RSSI
  | 2 => some .TRI_SERVO_FB_CURRENT
  | 3 => some .TRI_SERVO_FB_EXT1
  | _ => none

/-- Thrust/torque tail tune states (header lines 126-133). -/
inductive tailTuneState_e
  | TT_IDLE
  | TT_WAIT
  | TT_ACTIVE
  | TT_WAIT_FOR_DISARM
  | TT_DONE
  | TT_FAIL
  deriving DecidableEq, Repr, Fintype

/-- Numeric value of a tail tune state. -/
def tailTuneState_e.toNat : tailTuneState_e → Nat
  | .TT_IDLE => 0
  | .TT_WAIT => 1
  | .TT_ACTIVE => 2
  | .TT_WAIT_FOR_DISARM => 3
  | .TT_DONE => 4
  | .TT_FAIL => 5

/-- The tail tune state a stored integer stands for, if any. -/
def tailTuneState_e.decode : Nat → Option tailTuneState_e
  | 0 => some .TT_IDLE
  | 1 => some .TT_WAIT
  | 2 => some .TT_ACTIVE
  | 3 => some .TT_WAIT_FOR_DISARM
  | 4 => some .TT_DONE
  | 5 => some .TT_FAIL
  | _ => none

/-- Servo setup states (header lines 135-139). -/
inductive servoSetupState_e
  | SS_IDLE
  | SS_SETUP
  | SS_CALIB
  deriving DecidableEq, Repr, Fintype

/-- Numeric value of a servo setup state. -/
def servoSetupState_e.toNat : servoSetupState_e → Nat
  | .SS_IDLE => 0
  | .SS_SETUP => 1
  | .SS_CALIB => 2

/-- The servo setup state a stored integer stands for, if any. -/
def servoSetupState_e.decode : Nat → Option servoSetupState_e
  | 0 => some .SS_IDLE
  | 1 => some .SS_SETUP
  | 2 => some .SS_CALIB
  | _ => none

/-- Servo calibration states (header lines 141-145). -/
inductive servoSetupCalibState_e
  | SS_C_IDLE
  | SS_C_CALIB_MIN_MID_MAX
  | SS_C_CALIB_SPEED
  deriving DecidableEq, Repr, Fintype

/-- Numeric value of a servo calibration state. -/
def servoSetupCalibState_e.toNat : servoSetupCalibState_e → Nat
  | .SS_C_IDLE => 0
  | .SS_C_CALIB_MIN_MID_MAX => 1
  | .SS_C_CALIB_SPEED => 2

/-- The servo calibration state a stored integer stands for, if any. -/
def servoSetupCalibState_e.decode : Nat → Option servoSetupCalibState_e
  | 0 => some .SS_C_IDLE
  | 1 => some .SS_C_CALIB_MIN_MID_MAX
  | 2 => some .SS_C_CALIB_SPEED
  | _ => none

/-- Servo calibration sub-states (header lines 147-151). -/
inductive servoSetupCalibSubState_e
  | SS_C_MIN
  | SS_C_MID
  | SS_C_MAX
  deriving DecidableEq, Repr, Fintype

/-- Numeric value of a servo calibration sub-state. -/
def servoSetupCalibSubState_e.toNat : servoSetupCalibSubState_e → Nat
  | .SS_C_MIN => 0
  | .SS_C_MID => 1
  | .SS_C_MAX => 2

/-- The servo calibration sub-state a stored integer stands for, if any. -/
def servoSetupCalibSubState_e.decode : Nat → Option servoSetupCalibSubState_e
  | 0 => some .SS_C_MIN
  | 1 => some .SS_C_MID
  | 2 => some .SS_C_MAX
  | _ => none

/-- The enumerator whose numeric value is one more, if there is one. -/
def servoSetupCalibSubState_e.next (s : servoSetupCalibSubState_e) :
    Option servoSetupCalibSubState_e :=
  servoSetupCalibSubState_e.decode (s.toNat + 1)

/-- Tail tune modes (header lines 153-157). -/
inductive tailtuneMode_e
  | TT_MODE_NONE
  | TT_MODE_THRUST_TORQUE
  | TT_MODE_SERVO_SETUP
  deriving DecidableEq, Repr, Fintype

/-- Numeric value of a tail tune mode. -/
def tailtuneMode_e.toNat : tailtuneMode_e → Nat
  | .TT_MODE_NONE => 0
  | .TT_MODE_THRUST_TORQUE => 1
  | .TT_MODE_SERVO_SETUP => 2

/-- The tail tune mode a stored integer stands for, if any. -/
def tailtuneMode_e.decode : Nat → Option tailtuneMode_e
  | 0 => some .TT_MODE_NONE
  | 1 => some .TT_MODE_THRUST_TORQUE
  | 2 => some .TT_MODE_SERVO_SETUP
  | _ => none

/-! ## Records -/

/-- Mixer configuration (header lines 99-112). -/
structure triMixerConfig_t where
  tri_unarmed_servo : Nat
  tri_servo_feedback : Nat
  tri_tail_motor_thrustfactor : Int
  tri_tail_servo_speed : Int
  tri_servo_min_adc : Nat
  tri_servo_mid_adc : Nat
  tri_servo_max_adc : Nat
  tri_motor_acc_yaw_correction : Nat
  dummy : Nat
  tri_motor_acceleration : ℚ
  tri_yaw_boost : Nat
  tri_dynamic_yaw_maxthrottle : Nat
  deriving DecidableEq, Repr

/-- Running sum of servo angle samples (header lines 159-162):
a uint32_t sum and a uint16_t count. -/
structure servoAvgAngle_t where
  sum : Nat
  numOf : Nat
  deriving DecidableEq, Repr

/-- Thrust/torque tune session (header lines 164-172). -/
structure thrustTorque_t where
  state : tailTuneState_e
  startBeepDelay_ms : Nat
  timestamp_ms : Nat
  timestamp2_ms : Nat
  lastAdjTime_ms : Nat
  servoAvgAngle : servoAvgAngle_t
  tailTuneGyroLimit : ℚ
  deriving DecidableEq, Repr

/-- Tail servo (header lines 174-190). The two pointers and the ADC channel
are wiring to collaborators and carry no value of their own in this model. -/
structure tailServo_t where
  maxYawOutput : ℚ
  thrustFactor : ℚ
  maxDeflection : ℚ
  speed : Int
  pitchZeroAngle : ℚ
  angleAtMin : ℚ
  angleAtMax : ℚ
  angleAtLinearMin : ℚ
  angleAtLinearMax : ℚ
  angle : ℚ
  ADCRaw : Nat
  saturated : Bool
  deriving DecidableEq, Repr

/-- Tail motor (header lines 192-199). -/
structure tailMotor_t where
  accelerationDelay_ms : Int
  decelerationDelay_ms : Int
  accelerationDelay_angle : Int
  decelerationDelay_angle : Int
  virtualFeedBack : ℚ
  acceleration : ℚ
  deriving DecidableEq, Repr

/-- Calibration average (header lines 214-218): a pointer to the uint16_t
configuration field being calibrated, a uint32_t sum and a uint16_t count. -/
structure average_t where
  pCalibConfig : Option Nat
  sum : Nat
  numOf : Nat
  deriving DecidableEq, Repr

/-- Servo calibration session (header lines 208-219). -/
structure servoCalib_t where
  done : Bool
  waitingServoToStop : Bool
  state : servoSetupCalibState_e
  subState : servoSetupCalibSubState_e
  timestamp_ms : Nat
  avg : average_t
  deriving DecidableEq, Repr

/-- Servo setup session (header lines 204-220). -/
structure servoSetup_t where
  state : servoSetupState_e
  servoVal : ℚ
  pLimitToAdjust : Option Nat
  cal : servoCalib_t
  deriving DecidableEq, Repr

/-- Tail tune aggregate (header lines 201-221). -/
structure tailTune_t where
  mode : tailtuneMode_e
  tt : thrustTorque_t
  ss : servoSetup_t
  deriving DecidableEq, Repr

/-! ## Reading fields back from stored words -/

/-- A stored pointer word: zero is the null pointer. -/
def decodePtr (w : Nat) : Option Nat := if w = 0 then none else some w

/-- A stored _Bool: any non-zero word is true. -/
def decodeBool (w : Nat) : Bool := decide (w ≠ 0)

/-- The tailTune_t every scalar field of which holds the word 0: what zeroing
the object produces. Enumeration fields are read through their decoders, so the
result is none when some enumeration has no enumerator 0; the all-zero float
word is +0.0. -/
def tailTune_t.zeroed : Option tailTune_t := do
  let mode ← tailtuneMode_e.decode 0
  let ttState ← tailTuneState_e.decode 0
  let ssState ← servoSetupState_e.decode 0
  let calState ← servoSetupCalibState_e.decode 0
  let calSubState ← servoSetupCalibSubState_e.decode 0
  pure
    { mode := mode
      tt :=
        { state := ttState
          startBeepDelay_ms := 0
          timestamp_ms := 0
          timestamp2_ms := 0
          lastAdjTime_ms := 0
          servoAvgAngle := { sum := 0, numOf := 0 }
          tailTuneGyroLimit := 0 }
      ss :=
        { state := ssState
          servoVal := 0
          pLimitToAdjust := decodePtr 0
          cal :=
            { done := decodeBool 0
              waitingServoToStop := decodeBool 0
              state := calState
              subState := calSubState
              timestamp_ms := 0
              avg := { pCalibConfig := decodePtr 0, sum := 0, numOf := 0 } } } }

/-- Storing a feedback source into the uint8_t field tri_servo_feedback. -/
def storeFeedbackSource (s : triServoFeedbackSource_e) : Nat := s.toNat % 2 ^ 8

/-- Reading the feedback source back from the uint8_t field. -/
def loadFeedbackSource (v : Nat) : Option triServoFeedbackSource_e :=
  triServoFeedbackSource_e.decode v

/-- Whether an integer fits the int16_t range. -/
def fitsInt16 (v : Int) : Prop := -(2 ^ 15) ≤ v ∧ v ≤ 2 ^ 15 - 1

instance (v : Int) : Decidable (fitsInt16 v) := by
  unfold fitsInt16; infer_instance

/-- An integer-valued rational of magnitude below 2 ^ 24 is a binary32 value,
so a correctly rounded float operation whose exact result is such a number
returns exactly that number. -/
def exactInBinary32 (q : ℚ) : Prop := q.den = 1 ∧ q.num.natAbs < 2 ^ 24

/-! ## Running averages

The header declares the two accumulators; the statements that feed them are in
the mixer implementation, which is not part of the header. -/

/-- Modelled from the spec: the accumulation statement of the thrust/torque
tune (the implementation file is missing). One sample is added to the uint32_t
sum and the uint16_t count is incremented, both with C wrap-around. -/
def servoAvgAngle_t.add (a : servoAvgAngle_t) (sample : Nat) : servoAvgAngle_t :=
  { sum := (a.sum + sample) % 2 ^ 32, numOf := (a.numOf + 1) % 2 ^ 16 }

/-- Modelled from the spec: the integer mean of the accumulated samples
(the implementation file is missing), a uint32_t division. -/
def servoAvgAngle_t.mean (a : servoAvgAngle_t) : Nat := a.sum / a.numOf

/-- Modelled from the spec: the accumulation statement of the servo
calibration (the implementation file is missing). One raw ADC sample is added
to the uint32_t sum and the uint16_t count is incremented, with C wrap-around. -/
def average_t.add (a : average_t) (sample : Nat) : average_t :=
  { a with sum := (a.sum + sample) % 2 ^ 32, numOf := (a.numOf + 1) % 2 ^ 16 }

/-- Modelled from the spec: the value the servo calibration writes through
pCalibConfig (the implementation file is missing): the integer mean converted
to the uint16_t configuration field. -/
def average_t.stored (a : average_t) : Nat := (a.sum / a.numOf) % 2 ^ 16

/-! ## Geometry model and motor correction

These functions are declared by the header or named by the specification;
their bodies are in the mixer implementation, which is not part of the header.
-/

/-- Modelled from the spec: the clamp used by the mixer (common maths helper,
missing): a value below the lower limit becomes the lower limit, one above the
upper limit becomes the upper limit. -/
def constrainf (amt low high : ℚ) : ℚ :=
  if amt < low then low else if amt > high then high else amt

/-- Modelled from the spec: the integer clamp (common maths helper, missing). -/
def constrain (amt low high : Int) : Int :=
  if amt < low then low else if amt > high then high else amt

/-- Conversion of a float to a C integer: the fraction is discarded
(rounding toward zero). -/
def truncToInt (q : ℚ) : Int := if 0 ≤ q then ⌊q⌋ else ⌈q⌉

/-- Modelled from the spec: two-segment linear interpolation through the
points (x0, y0), (x1, y1), (x2, y2) (the implementation file is missing). -/
def interpolate3 (x0 x1 x2 y0 y1 y2 x : ℚ) : ℚ :=
  if x < x1 then y0 + (x - x0) * (y1 - y0) / (x1 - x0)
  else y1 + (x - x1) * (y2 - y1) / (x2 - x1)

/-- Modelled from the spec: angleFromADC (the implementation file is missing).
Section 4.1: linear interpolation using the calibrated min/mid/max ADC and the
corresponding angleAtMin, pitchZeroAngle, angleAtMax triple; values beyond the
calibrated extremes clamp. -/
def angleFromADC (conf : triMixerConfig_t) (servo : tailServo_t) (raw : Nat) : ℚ :=
  interpolate3 conf.tri_servo_min_adc conf.tri_servo_mid_adc conf.tri_servo_max_adc
    servo.angleAtMin servo.pitchZeroAngle servo.angleAtMax
    (constrainf raw conf.tri_servo_min_adc conf.tri_servo_max_adc)

/-- Modelled from the spec: the thrust curve index of an angle (the
implementation file is missing). Section 4.1: the index is derived by clamped
linear scaling of the angle into the curve resolution: the mechanical range
from MID - MAX_ANGLE to MID + MAX_ANGLE is scaled onto the curve size, the
result is clamped to the valid indices and converted to an integer. -/
def thrustCurveIndex (angle : ℚ) : Int :=
  let scaled : ℚ :=
    (angle - (TRI_TAIL_SERVO_ANGLE_MID - TRI_TAIL_SERVO_MAX_ANGLE))
      * TRI_YAW_FORCE_CURVE_SIZE / (2 * TRI_TAIL_SERVO_MAX_ANGLE)
  truncToInt (constrainf scaled 0 ((TRI_YAW_FORCE_CURVE_SIZE : ℚ) - 1))

/-- Modelled from the spec: thrustFactorCurve (the implementation file is
missing): the lookup of an angle in the precomputed table. It is none when
the index is outside the table. -/
def thrustFactorCurve (curve : List ℚ) (angle : ℚ) : Option ℚ :=
  let i := thrustCurveIndex angle
  if 0 ≤ i then curve.get? i.toNat else none

/-- State read by the motor correction: the tail servo, its angle at the
previous tick, and the tail motor. -/
structure triState_t where
  tailServo : tailServo_t
  prevAngle : ℚ
  tailMotor : tailMotor_t
  deriving DecidableEq, Repr

/-- Modelled from the spec: the effect of one control tick on the state the
motor correction reads (the implementation file is missing): the servo angle
of this tick replaces the current one, which becomes the previous one. -/
def triState_t.tick (s : triState_t) (angle : ℚ) : triState_t :=
  { s with tailServo := { s.tailServo with angle := angle }, prevAngle := s.tailServo.angle }

/-- Modelled from the spec: triGetMotorCorrection (the header declares it, the
implementation file is missing). Section 4.4: the thrust delta is computed
from the current and previous-tick servo angle and the delay model of the tail
motor, and is clamped to plus or minus TRI_MOTOR_ACC_CORRECTION_MAX; motors
other than the tail motor get zero. The unclamped computation `delta` and the
index of the tail motor are not given by the spec and are parameters. The
result is converted to the int16_t the function returns. -/
def triGetMotorCorrection (delta : ℚ → ℚ → tailMotor_t → ℚ) (tailMotorIndex : Nat)
    (s : triState_t) (motorIndex : Nat) : Int :=
  if motorIndex = tailMotorIndex then
    truncToInt (constrainf (delta s.tailServo.angle s.prevAngle s.tailMotor)
      (-(TRI_MOTOR_ACC_CORRECTION_MAX : ℚ)) (TRI_MOTOR_ACC_CORRECTION_MAX : ℚ))
  else 0

/-! ## A calibrated example -/

/-- A configuration with the ADC limits calibrated in order. -/
def calibratedConf : triMixerConfig_t :=
  { tri_unarmed_servo := 0
    tri_servo_feedback := 1
    tri_tail_motor_thrustfactor := 138
    tri_tail_servo_speed := 300
    tri_servo_min_adc := 1000
    tri_servo_mid_adc := 2000
    tri_servo_max_adc := 3200
    tri_motor_acc_yaw_correction := 6
    dummy := 0
    tri_motor_acceleration := 18
    tri_yaw_boost := 240
    tri_dynamic_yaw_maxthrottle := 300 }

/-- A tail servo whose angle bounds are in the order of the data model. -/
def calibratedServo : tailServo_t :=
  { maxYawOutput := 0
    thrustFactor := 138 / 10
    maxDeflection := 50
    speed := 300
    pitchZeroAngle := 94
    angleAtMin := 40
    angleAtMax := 140
    angleAtLinearMin := 50
    angleAtLinearMax := 130
    angle := 90
    ADCRaw := 2000
    saturated := false }

/-! ## Helper lemmas -/

theorem constrainf_mem (x low high : ℚ) (h : low ≤ high) :
    low ≤ constrainf x low high ∧ constrainf x low high ≤ high := by
  unfold constrainf
  split_ifs with h1 h2
  · exact ⟨le_refl _, h⟩
  · exact ⟨h, le_refl _⟩
  · exact ⟨not_lt.mp h1, not_lt.mp h2⟩

theorem truncToInt_mem (q : ℚ) (a b : Int) (ha : a ≤ 0) (hb : 0 ≤ b)
    (h1 : (a : ℚ) ≤ q) (h2 : q ≤ (b : ℚ)) :
    a ≤ truncToInt q ∧ truncToInt q ≤ b := by
  unfold truncToInt
  split_ifs with h0
  · refine ⟨le_trans ha (Int.floor_nonneg.mpr h0), ?_⟩
    exact Int.cast_le.mp (le_trans (Int.floor_le q) h2)
  · refine ⟨?_, ?_⟩
    · exact Int.cast_le.mp (le_trans h1 (Int.le_ceil q))
    · exact le_trans (Int.ceil_le.mpr (by push_cast; linarith)) hb

theorem servoAvgAngle_foldl_add (xs : List Nat) (a : servoAvgAngle_t)
    (hs : a.sum + xs.sum < 2 ^ 32) (hn : a.numOf + xs.length < 2 ^ 16) :
    (xs.foldl servoAvgAngle_t.add a).sum = a.sum + xs.sum ∧
    (xs.foldl servoAvgAngle_t.add a).numOf = a.numOf + xs.length := by
  induction xs generalizing a with
  | nil => simp
  | cons x xs ih =>
    simp only [List.sum_cons, List.length_cons] at hs hn
    have h1 : (servoAvgAngle_t.add a x).sum = a.sum + x := by
      simp only [servoAvgAngle_t.add]; exact Nat.mod_eq_of_lt (by omega)
    have h2 : (servoAvgAngle_t.add a x).numOf = a.numOf + 1 := by
      simp only [servoAvgAngle_t.add]; exact Nat.mod_eq_of_lt (by omega)
    have := ih (servoAvgAngle_t.add a x) (by rw [h1]; omega) (by rw [h2]; omega)
    simp only [List.foldl_cons, List.sum_cons, List.length_cons]
    rw [this.1, this.2, h1, h2]
    constructor <;> omega

theorem average_foldl_add (xs : List Nat) (a : average_t)
    (hs : a.sum + xs.sum < 2 ^ 32) (hn : a.numOf + xs.length < 2 ^ 16) :
    (xs.foldl average_t.add a).sum = a.sum + xs.sum ∧
    (xs.foldl average_t.add a).numOf = a.numOf + xs.length ∧
    (xs.foldl average_t.add a).pCalibConfig = a.pCalibConfig := by
  induction xs generalizing a with
  | nil => simp
  | cons x xs ih =>
    simp only [List.sum_cons, List.length_cons] at hs hn
    have h1 : (average_t.add a x).sum = a.sum + x := by
      simp only [average_t.add]; exact Nat.mod_eq_of_lt (by omega)
    have h2 : (average_t.add a x).numOf = a.numOf + 1 := by
      simp only [average_t.add]; exact Nat.mod_eq_of_lt (by omega)
    have h3 : (average_t.add a x).pCalibConfig = a.pCalibConfig := rfl
    have := ih (average_t.add a x) (by rw [h1]; omega) (by rw [h2]; omega)
    simp only [List.foldl_cons, List.sum_cons, List.length_cons]
    rw [this.1, this.2.1, this.2.2, h1, h2, h3]
    refine ⟨?_, ?_, rfl⟩ <;> omega

theorem samples_sum_le (xs : List Nat) (hv : ∀ x ∈ xs, x ≤ 65535) :
    xs.sum ≤ xs.length * 65535 := by
  induction xs with
  | nil => simp
  | cons x xs ih =>
    have hx : x ≤ 65535 := hv x (List.mem_cons_self _ _)
    have := ih (fun y hy => hv y (List.mem_cons_of_mem _ hy))
    simp only [List.sum_cons, List.length_cons]
    omega

/-! ## Theorems: enumerations and constants -/

open tailTuneState_e servoSetupState_e servoSetupCalibState_e servoSetupCalibSubState_e
  tailtuneMode_e triServoFeedbackSource_e

/-- C6: the thrust/torque tune state type has exactly the six states IDLE,
WAIT, ACTIVE, WAIT_FOR_DISARM, DONE, FAIL: the type has six members, every
member is one of the six, their numeric values are 0 to 5 in that order (so
they are pairwise distinct and strictly increasing), and an integer is the
value of a state exactly when it is at most 5. -/
theorem tailTuneState_exactly_six_in_order :
    Fintype.card tailTuneState_e = 6 ∧
    (∀ s : tailTuneState_e,
      s ∈ [TT_IDLE, TT_WAIT, TT_ACTIVE, TT_WAIT_FOR_DISARM, TT_DONE, TT_FAIL]) ∧
    [TT_IDLE, TT_WAIT, TT_ACTIVE, TT_WAIT_FOR_DISARM, TT_DONE, TT_FAIL].map
      tailTuneState_e.toNat = [0, 1, 2, 3, 4, 5] ∧
    Function.Injective tailTuneState_e.toNat ∧
    (TT_IDLE.toNat < TT_WAIT.toNat ∧ TT_WAIT.toNat < TT_ACTIVE.toNat ∧
      TT_ACTIVE.toNat < TT_WAIT_FOR_DISARM.toNat ∧
      TT_WAIT_FOR_DISARM.toNat < TT_DONE.toNat ∧ TT_DONE.toNat < TT_FAIL.toNat) ∧
    (∀ v : Nat, (∃ s : tailTuneState_e, s.toNat = v) ↔ v ≤ 5) ∧
    (∀ v : Nat, (tailTuneState_e.decode v).isSome ↔ v ≤ 5) ∧
    (∀ s : tailTuneState_e, tailTuneState_e.decode s.toNat = some s) := by
  refine ⟨rfl, ?_, rfl, ?_, by decide, ?_, ?_, ?_⟩
  · intro s; cases s <;> decide
  · intro a b h; cases a <;> cases b <;> first | rfl | exact absurd h (by decide)
  · intro v
    constructor
    · rintro ⟨s, rfl⟩; cases s <;> decide
    · intro h; interval_cases v <;> decide
  · intro v
    constructor
    · intro h
      by_contra hv
      obtain ⟨k, rfl⟩ : ∃ k, v = k + 6 := ⟨v - 6, by omega⟩
      simp [tailTuneState_e.decode] at h
    · intro h; interval_cases v <;> rfl
  · intro s; cases s <;> rfl

/-- C7 (as amended): the top-level servo setup state is exactly IDLE, SETUP,
CALIB with values 0, 1, 2; the calibration state is exactly IDLE,
CALIB_MIN_MID_MAX, CALIB_SPEED with values 0, 1, 2, so CALIB_MIN_MID_MAX comes
before CALIB_SPEED and the two are the only values other than the idle one;
the sub-state is exactly MIN, MID, MAX with values 0, 1, 2, the successor of
MIN is MID, that of MID is MAX, and MAX has none. -/
theorem servoSetup_state_space :
    (Fintype.card servoSetupState_e = 3 ∧
      (∀ s : servoSetupState_e, s ∈ [SS_IDLE, SS_SETUP, SS_CALIB]) ∧
      [SS_IDLE, SS_SETUP, SS_CALIB].map servoSetupState_e.toNat = [0, 1, 2] ∧
      (∀ v : Nat, (∃ s : servoSetupState_e, s.toNat = v) ↔ v ≤ 2)) ∧
    (Fintype.card servoSetupCalibState_e = 3 ∧
      (∀ s : servoSetupCalibState_e,
        s ∈ [SS_C_IDLE, SS_C_CALIB_MIN_MID_MAX, SS_C_CALIB_SPEED]) ∧
      [SS_C_IDLE, SS_C_CALIB_MIN_MID_MAX, SS_C_CALIB_SPEED].map
        servoSetupCalibState_e.toNat = [0, 1, 2] ∧
      SS_C_CALIB_MIN_MID_MAX.toNat < SS_C_CALIB_SPEED.toNat ∧
      (∀ s : servoSetupCalibState_e,
        s = SS_C_IDLE ∨ s = SS_C_CALIB_MIN_MID_MAX ∨ s = SS_C_CALIB_SPEED) ∧
      (∀ v : Nat, (∃ s : servoSetupCalibState_e, s.toNat = v) ↔ v ≤ 2)) ∧
    (Fintype.card servoSetupCalibSubState_e = 3 ∧
      (∀ s : servoSetupCalibSubState_e, s ∈ [SS_C_MIN, SS_C_MID, SS_C_MAX]) ∧
      [SS_C_MIN, SS_C_MID, SS_C_MAX].map servoSetupCalibSubState_e.toNat = [0, 1, 2] ∧
      (∀ v : Nat, (∃ s : servoSetupCalibSubState_e, s.toNat = v) ↔ v ≤ 2) ∧
      SS_C_MIN.next = some SS_C_MID ∧
      SS_C_MID.next = some SS_C_MAX ∧
      SS_C_MAX.next = none) := by
  refine ⟨⟨rfl, ?_, rfl, ?_⟩, ⟨rfl, ?_, rfl, by decide, ?_, ?_⟩,
    ⟨rfl, ?_, rfl, ?_, rfl, rfl, rfl⟩⟩
  · intro s; cases s <;> decide
  · intro v
    constructor
    · rintro ⟨s, rfl⟩; cases s <;> decide
    · intro h; interval_cases v <;> decide
  · intro s; cases s <;> decide
  · intro s; cases s <;> decide
  · intro v
    constructor
    · rintro ⟨s, rfl⟩; cases s <;> decide
    · intro h; interval_cases v <;> decide
  · intro s; cases s <;> decide
  · intro v
    constructor
    · rintro ⟨s, rfl⟩; cases s <;> decide
    · intro h; interval_cases v <;> decide

/-- C7, counterexample: the calibration state does not range over exactly
CALIB_MIN_MID_MAX and CALIB_SPEED. The header gives the type a third
enumerator, SS_C_IDLE with value 0, which is neither of the two and is the
calibration state of the zeroed tail tune object. -/
theorem servoSetupCalibState_not_only_two :
    ¬ (∀ s : servoSetupCalibState_e,
        s = SS_C_CALIB_MIN_MID_MAX ∨ s = SS_C_CALIB_SPEED) ∧
    servoSetupCalibState_e.decode 0 = some SS_C_IDLE ∧
    SS_C_IDLE ≠ SS_C_CALIB_MIN_MID_MAX ∧ SS_C_IDLE ≠ SS_C_CALIB_SPEED ∧
    tailTune_t.zeroed.map (fun t => t.ss.cal.state) = some SS_C_IDLE := by
  refine ⟨?_, rfl, by decide, by decide, rfl⟩
  intro h
  rcases h SS_C_IDLE with h1 | h1 <;> exact absurd h1 (by decide)

/-- C8: the feedback source is one of exactly four sources; storing a source
into the uint8_t field tri_servo_feedback and reading it back gives the source
again; a stored value reads back as a source exactly when it is at most 3; and
0 reads back as VIRTUAL. -/
theorem feedbackSource_store_load :
    Fintype.card triServoFeedbackSource_e = 4 ∧
    (∀ s : triServoFeedbackSource_e,
      s ∈ [TRI_SERVO_FB_VIRTUAL, TRI_SERVO_FB_RSSI, TRI_SERVO_FB_CURRENT,
        TRI_SERVO_FB_EXT1]) ∧
    (∀ s : triServoFeedbackSource_e,
      storeFeedbackSource s < 2 ^ 8 ∧ loadFeedbackSource (storeFeedbackSource s) = some s) ∧
    (∀ v : Nat, (loadFeedbackSource v).isSome ↔ v ≤ 3) ∧
    loadFeedbackSource 0 = some TRI_SERVO_FB_VIRTUAL := by
  refine ⟨rfl, ?_, ?_, ?_, rfl⟩
  · intro s; cases s <;> decide
  · intro s; cases s <;> exact ⟨by decide, rfl⟩
  · intro v
    constructor
    · intro h
      by_contra hv
      obtain ⟨k, rfl⟩ : ∃ k, v = k + 4 := ⟨v - 4, by omega⟩
      simp [loadFeedbackSource, triServoFeedbackSource_e.decode] at h
    · intro h; interval_cases v <;> rfl

/-- C10: the all-zero tailTune_t is the fully idle session: mode NONE, thrust
torque state IDLE, servo setup state IDLE, calibration state IDLE, sub-state
MIN, both flags false, both running averages empty; and every state
enumeration of the aggregate gives the value 0 to that member. -/
theorem tailTune_zeroed_is_idle :
    (∃ t : tailTune_t, tailTune_t.zeroed = some t ∧
      t.mode = TT_MODE_NONE ∧
      t.tt.state = TT_IDLE ∧
      t.ss.state = SS_IDLE ∧
      t.ss.cal.state = SS_C_IDLE ∧
      t.ss.cal.subState = SS_C_MIN ∧
      t.ss.cal.done = false ∧
      t.ss.cal.waitingServoToStop = false ∧
      t.tt.servoAvgAngle.sum = 0 ∧ t.tt.servoAvgAngle.numOf = 0 ∧
      t.ss.cal.avg.sum = 0 ∧ t.ss.cal.avg.numOf = 0) ∧
    (TT_MODE_NONE.toNat = 0 ∧ TT_IDLE.toNat = 0 ∧ SS_IDLE.toNat = 0 ∧
      SS_C_IDLE.toNat = 0 ∧ SS_C_MIN.toNat = 0) ∧
    ((∀ m : tailtuneMode_e, m.toNat = 0 ↔ m = TT_MODE_NONE) ∧
      (∀ s : tailTuneState_e, s.toNat = 0 ↔ s = TT_IDLE) ∧
      (∀ s : servoSetupState_e, s.toNat = 0 ↔ s = SS_IDLE) ∧
      (∀ s : servoSetupCalibState_e, s.toNat = 0 ↔ s = SS_C_IDLE) ∧
      (∀ s : servoSetupCalibSubState_e, s.toNat = 0 ↔ s = SS_C_MIN)) := by
  refine ⟨⟨_, rfl, rfl, rfl, rfl, rfl, rfl, rfl, rfl, rfl, rfl, rfl, rfl⟩,
    ⟨rfl, rfl, rfl, rfl, rfl⟩, ?_, ?_, ?_, ?_, ?_⟩ <;>
  · intro s; cases s <;> decide

/-! ## Theorems: numeric ranges -/

/-- C4: the tail thrust factor is stored scaled by 10 with range 1.0 to 40.0:
the two float limits are exactly 1 and 40 (integers that binary32 holds
exactly), and every stored integer between TAIL_THRUST_FACTOR_MIN and
TAIL_THRUST_FACTOR_MAX stands for a real value between 1 and 40 and fits the
int16_t field tri_tail_motor_thrustfactor. -/
theorem thrustFactor_fixed_point_range (v : Int)
    (hlo : TAIL_THRUST_FACTOR_MIN ≤ v) (hhi : v ≤ TAIL_THRUST_FACTOR_MAX) :
    TAIL_THRUST_FACTOR_MIN_FLOAT = 1 ∧ TAIL_THRUST_FACTOR_MAX_FLOAT = 40 ∧
    exactInBinary32 TAIL_THRUST_FACTOR_MIN_FLOAT ∧
    exactInBinary32 TAIL_THRUST_FACTOR_MAX_FLOAT ∧
    (1 : ℚ) ≤ (v : ℚ) / 10 ∧ (v : ℚ) / 10 ≤ 40 ∧
    fitsInt16 v := by
  have e1 : TAIL_THRUST_FACTOR_MIN_FLOAT = 1 := by
    norm_num [TAIL_THRUST_FACTOR_MIN_FLOAT, TAIL_THRUST_FACTOR_MIN]
  have e2 : TAIL_THRUST_FACTOR_MAX_FLOAT = 40 := by
    norm_num [TAIL_THRUST_FACTOR_MAX_FLOAT, TAIL_THRUST_FACTOR_MAX]
  have hlo1 : (10 : ℚ) ≤ (v : ℚ) := by
    have : ((10 : Int) : ℚ) ≤ (v : ℚ) := Int.cast_le.mpr hlo
    simpa using this
  have hhi1 : (v : ℚ) ≤ 400 := by
    have : (v : ℚ) ≤ ((400 : Int) : ℚ) := Int.cast_le.mpr hhi
    simpa using this
  unfold TAIL_THRUST_FACTOR_MIN at hlo
  unfold TAIL_THRUST_FACTOR_MAX at hhi
  refine ⟨e1, e2, ?_, ?_, ?_, ?_, ?_⟩
  · rw [e1]; exact ⟨rfl, by decide⟩
  · rw [e2]; exact ⟨rfl, by decide⟩
  · rw [le_div_iff₀ (by norm_num)]; linarith
  · rw [div_le_iff₀ (by norm_num)]; linarith
  · unfold fitsInt16; constructor <;> omega

/-- Witness for C4 at the stored value 138 (thrust factor 13.8). -/
theorem thrustFactor_fixed_point_range_witness :
    TAIL_THRUST_FACTOR_MIN ≤ 138 ∧ (138 : Int) ≤ TAIL_THRUST_FACTOR_MAX ∧
    (1 : ℚ) ≤ ((138 : Int) : ℚ) / 10 ∧ ((138 : Int) : ℚ) / 10 ≤ 40 ∧ fitsInt16 138 :=
  have h := thrustFactor_fixed_point_range 138 (by decide) (by decide)
  ⟨by decide, by decide, h.2.2.2.2.1, h.2.2.2.2.2.1, h.2.2.2.2.2.2⟩

/-- C9: the running averages cannot overflow. For at most 65535 samples, each
at most 65535, the uint32_t sum of either accumulator is the exact sum of the
samples and the uint16_t count is their number; and when there is at least one
sample the integer mean is at most 65535, so the value the calibration stores
into the uint16_t configuration field is the mean itself. -/
theorem running_average_no_overflow (samples : List Nat) (p : Option Nat)
    (hn : samples.length ≤ 65535) (hv : ∀ x ∈ samples, x ≤ 65535) :
    samples.sum < 2 ^ 32 ∧
    (samples.foldl servoAvgAngle_t.add { sum := 0, numOf := 0 }).sum = samples.sum ∧
    (samples.foldl servoAvgAngle_t.add { sum := 0, numOf := 0 }).numOf = samples.length ∧
    (samples.foldl average_t.add { pCalibConfig := p, sum := 0, numOf := 0 }).sum
      = samples.sum ∧
    (samples.foldl average_t.add { pCalibConfig := p, sum := 0, numOf := 0 }).numOf
      = samples.length ∧
    (1 ≤ samples.length →
      (samples.foldl servoAvgAngle_t.add { sum := 0, numOf := 0 }).mean
        = samples.sum / samples.length ∧
      samples.sum / samples.length ≤ 65535 ∧
      (samples.foldl average_t.add { pCalibConfig := p, sum := 0, numOf := 0 }).stored
        = samples.sum / samples.length) := by
  have hsum : samples.sum ≤ samples.length * 65535 := samples_sum_le samples hv
  have hbound : samples.length * 65535 ≤ 65535 * 65535 := Nat.mul_le_mul_right _ hn
  have hlt : samples.sum < 2 ^ 32 := by
    have : (65535 * 65535 : Nat) < 2 ^ 32 := by norm_num
    omega
  have ha := servoAvgAngle_foldl_add samples { sum := 0, numOf := 0 }
    (by simpa using hlt) (by simp only [Nat.zero_add]; omega)
  have hb := average_foldl_add samples { pCalibConfig := p, sum := 0, numOf := 0 }
    (by simpa using hlt) (by simp only [Nat.zero_add]; omega)
  simp only [Nat.zero_add] at ha hb
  have hmean : samples.sum / samples.length ≤ 65535 :=
    Nat.div_le_of_le_mul hsum
  refine ⟨hlt, ha.1, ha.2, hb.1, hb.2.1, ?_⟩
  intro _
  refine ⟨?_, hmean, ?_⟩
  · simp only [servoAvgAngle_t.mean, ha.1, ha.2]
  · simp only [average_t.stored, hb.1, hb.2.1]
    exact Nat.mod_eq_of_lt (by omega)

/-- Witness for C9: three samples, two of them the largest uint16_t value. -/
theorem running_average_no_overflow_witness :
    ([65535, 65535, 3] : List Nat).sum < 2 ^ 32 ∧
    (([65535, 65535, 3] : List Nat).foldl servoAvgAngle_t.add
      { sum := 0, numOf := 0 }).sum = 131073 ∧
    (([65535, 65535, 3] : List Nat).foldl average_t.add
      { pCalibConfig := none, sum := 0, numOf := 0 }).stored = 43691 := by
  have h := running_average_no_overflow [65535, 65535, 3] none (by decide) (by decide)
  exact ⟨h.1, h.2.1, (h.2.2.2.2.2 (by decide)).2.2⟩

/-- C5: for every servo angle the thrust curve index is within 0 and 99, the
last index of a table of TRI_YAW_FORCE_CURVE_SIZE = 100 entries, so the lookup
in a table of that length always finds an entry; the two ends of the
mechanical range, 40 and 140 degrees, give the indices 0 and 99. -/
theorem thrustCurveIndex_in_bounds (curve : List ℚ)
    (hlen : curve.length = TRI_YAW_FORCE_CURVE_SIZE) (angle : ℚ) :
    0 ≤ thrustCurveIndex angle ∧ thrustCurveIndex angle ≤ 99 ∧
    thrustCurveIndex angle ≤ (TRI_YAW_FORCE_CURVE_SIZE : Int) - 1 ∧
    (thrustFactorCurve curve angle).isSome ∧
    thrustCurveIndex (TRI_TAIL_SERVO_ANGLE_MID - TRI_TAIL_SERVO_MAX_ANGLE) = 0 ∧
    thrustCurveIndex (TRI_TAIL_SERVO_ANGLE_MID + TRI_TAIL_SERVO_MAX_ANGLE) = 99 := by
  have key : ∀ a : ℚ, 0 ≤ thrustCurveIndex a ∧ thrustCurveIndex a ≤ 99 := by
    intro a
    unfold thrustCurveIndex
    have hc := constrainf_mem
      ((a - (TRI_TAIL_SERVO_ANGLE_MID - TRI_TAIL_SERVO_MAX_ANGLE))
        * TRI_YAW_FORCE_CURVE_SIZE / (2 * TRI_TAIL_SERVO_MAX_ANGLE))
      0 ((TRI_YAW_FORCE_CURVE_SIZE : ℚ) - 1) (by norm_num [TRI_YAW_FORCE_CURVE_SIZE])
    exact truncToInt_mem _ 0 99 (le_refl _) (by norm_num) (by simpa using hc.1)
      (by have := hc.2; norm_num [TRI_YAW_FORCE_CURVE_SIZE] at this ⊢; exact this)
  obtain ⟨h0, h99⟩ := key angle
  refine ⟨h0, h99, ?_, ?_, ?_, ?_⟩
  · simp only [TRI_YAW_FORCE_CURVE_SIZE]; omega
  · unfold thrustFactorCurve
    simp only [h0, if_true]
    rw [Option.isSome_iff_exists]
    have hlt : (thrustCurveIndex angle).toNat < curve.length := by
      rw [hlen]; simp only [TRI_YAW_FORCE_CURVE_SIZE]; omega
    exact ⟨curve.get ⟨_, hlt⟩, List.get?_eq_get hlt⟩
  · norm_num [thrustCurveIndex, constrainf, truncToInt, TRI_TAIL_SERVO_ANGLE_MID,
      TRI_TAIL_SERVO_MAX_ANGLE, TRI_YAW_FORCE_CURVE_SIZE]
  · norm_num [thrustCurveIndex, constrainf, truncToInt, TRI_TAIL_SERVO_ANGLE_MID,
      TRI_TAIL_SERVO_MAX_ANGLE, TRI_YAW_FORCE_CURVE_SIZE]

/-- Witness for C5: a table of 100 ones, looked up at the upper end of the
mechanical range. -/
theorem thrustCurveIndex_in_bounds_witness :
    (List.replicate 100 (1 : ℚ)).length = TRI_YAW_FORCE_CURVE_SIZE ∧
    thrustCurveIndex 140 ≤ 99 ∧
    (thrustFactorCurve (List.replicate 100 (1 : ℚ)) 140).isSome :=
  have h := thrustCurveIndex_in_bounds (List.replicate 100 (1 : ℚ))
    (List.length_replicate _ _) 140
  ⟨List.length_replicate _ _, h.2.1, h.2.2.2.1⟩

/-- C1: for every motor index and every state reached from any start state by
feeding any sequence of servo angles to the tick, the motor correction lies
between -TRI_MOTOR_ACC_CORRECTION_MAX and TRI_MOTOR_ACC_CORRECTION_MAX, that
is between -200 and 200, whatever the unclamped computation is. -/
theorem triGetMotorCorrection_bounded (delta : ℚ → ℚ → tailMotor_t → ℚ)
    (tailMotorIndex : Nat) (s0 : triState_t) (angles : List ℚ) (motorIndex : Nat) :
    TRI_MOTOR_ACC_CORRECTION_MAX = 200 ∧
    -TRI_MOTOR_ACC_CORRECTION_MAX ≤
      triGetMotorCorrection delta tailMotorIndex (angles.foldl triState_t.tick s0)
        motorIndex ∧
    triGetMotorCorrection delta tailMotorIndex (angles.foldl triState_t.tick s0)
        motorIndex ≤ TRI_MOTOR_ACC_CORRECTION_MAX := by
  refine ⟨rfl, ?_⟩
  generalize angles.foldl triState_t.tick s0 = s
  unfold triGetMotorCorrection
  split_ifs with h
  · have hc := constrainf_mem (delta s.tailServo.angle s.prevAngle s.tailMotor)
      (-(TRI_MOTOR_ACC_CORRECTION_MAX : ℚ)) (TRI_MOTOR_ACC_CORRECTION_MAX : ℚ)
      (by norm_num [TRI_MOTOR_ACC_CORRECTION_MAX])
    exact truncToInt_mem _ (-TRI_MOTOR_ACC_CORRECTION_MAX) TRI_MOTOR_ACC_CORRECTION_MAX
      (by decide) (by decide) (by push_cast; exact hc.1) hc.2
  · constructor <;> decide

/-- The interpolation on the calibrated example: the three calibration points
map to the angle triple, a sample half way between min and mid to the angle
half way, and samples beyond the extremes to the end angles. -/
theorem angleFromADC_examples :
    angleFromADC calibratedConf calibratedServo 1000 = 40 ∧
    angleFromADC calibratedConf calibratedServo 1500 = 67 ∧
    angleFromADC calibratedConf calibratedServo 2000 = 94 ∧
    angleFromADC calibratedConf calibratedServo 3200 = 140 ∧
    angleFromADC calibratedConf calibratedServo 0 = 40 ∧
    angleFromADC calibratedConf calibratedServo 65535 = 140 := by
  refine ⟨?_, ?_, ?_, ?_, ?_, ?_⟩ <;>
    norm_num [angleFromADC, interpolate3, constrainf, calibratedConf, calibratedServo]

/-- The thrust curve index at and around the ends of the mechanical range. -/
theorem thrustCurveIndex_examples :
    thrustCurveIndex 39 = 0 ∧ thrustCurveIndex 41 = 1 ∧ thrustCurveIndex 90 = 50 ∧
    thrustCurveIndex 139 = 99 ∧ thrustCurveIndex 141 = 99 := by
  refine ⟨?_, ?_, ?_, ?_, ?_⟩ <;>
    norm_num [thrustCurveIndex, constrainf, truncToInt, TRI_TAIL_SERVO_ANGLE_MID,
      TRI_TAIL_SERVO_MAX_ANGLE, TRI_YAW_FORCE_CURVE_SIZE]

/-- The motor correction reaches both limits and is zero for another motor:
with an unclamped computation of 1000 per degree of angle change, a change of
one degree gives 200 upward and -200 downward, a change of a tenth gives 100. -/
theorem triGetMotorCorrection_examples :
    triGetMotorCorrection (fun a p _ => (a - p) * 1000) 0
      (triState_t.tick ⟨calibratedServo, 90, ⟨0, 0, 0, 0, 0, 0⟩⟩ 91) 0 = 200 ∧
    triGetMotorCorrection (fun a p _ => (a - p) * 1000) 0
      (triState_t.tick ⟨calibratedServo, 90, ⟨0, 0, 0, 0, 0, 0⟩⟩ 89) 0 = -200 ∧
    triGetMotorCorrection (fun a p _ => (a - p) * 1000) 0
      (triState_t.tick ⟨calibratedServo, 90, ⟨0, 0, 0, 0, 0, 0⟩⟩ (901 / 10)) 0 = 100 ∧
    triGetMotorCorrection (fun a p _ => (a - p) * 1000) 0
      (triState_t.tick ⟨calibratedServo, 90, ⟨0, 0, 0, 0, 0, 0⟩⟩ 91) 1 = 0 := by
  refine ⟨?_, ?_, ?_, ?_⟩ <;>
    norm_num [triGetMotorCorrection, triState_t.tick, constrainf, truncToInt,
      calibratedServo, TRI_MOTOR_ACC_CORRECTION_MAX, Int.ceil_neg]

end MixerTricopter
